import Mathlib

/-!
Shallow embedding of `src/app/app.py` (a minimal Flask app uploading a file
to a Google Drive folder via an OAuth2 authorization-code flow).

The per-browser session is a dictionary using exactly two keys,
`'credentials'` (a pickled credential blob) and `'state'` (the anti-forgery
state token), modelled as a structure of two `Option` fields.  Each Flask
route handler becomes a function `Session → inputs → Response × Session ×
List Event`: the response it produces, the session as left behind, and the
externally visible calls it issued (here only the Drive `files().create`
call).  The outcome of the token exchange is an input to the callback
handler, since it is decided by the remote provider; the create call turns
out to be unreachable in the source (see `upload_file`).
-/

/-- Opaque OAuth2 credentials object (`flow.credentials` in the source:
access/refresh token pair and metadata).  The app never inspects its
contents, so a single opaque field suffices. -/
structure Credentials where
  token : String
deriving DecidableEq, Repr

/-- A pickled byte blob as stored under `session['credentials']`.  Pickling
is modelled as a bijective wrapper around the pickled object, which is
faithful to `pickle.dumps`/`pickle.loads` round-tripping. -/
structure PickledBlob where
  payload : Credentials
deriving DecidableEq, Repr

namespace Pickle

/-- `pickle.dumps`: serialize a credentials object. -/
def dumps (c : Credentials) : PickledBlob := ⟨c⟩

/-- `pickle.loads`: deserialize a credentials blob. -/
def loads (b : PickledBlob) : Credentials := b.payload

end Pickle

/-- The Flask session dictionary, restricted to the two keys the app uses:
`session['credentials']` and `session['state']`.  `none` models the key
being absent. -/
structure Session where
  credentials : Option PickledBlob
  state : Option String
deriving DecidableEq, Repr

/-- The four routes registered on the Flask app. -/
inductive Route where
  | index
  | upload
  | authorize
  | oauth2callback
deriving DecidableEq, Repr

/-- `url_for`: maps a route handler name to its URL rule as declared in the
`@app.route` decorators. -/
def urlFor : Route → String
  | .index => "/"
  | .upload => "/upload"
  | .authorize => "/authorize"
  | .oauth2callback => "/oauth2callback"

/-- An HTTP response as produced by a handler: a redirect to a location, a
rendered template, or a propagated Python exception (which Flask turns into
a generic 500 server error). -/
inductive Response where
  | redirect (location : String)
  | render (template : String) (folderId : String)
  | serverError (exn : String)
deriving DecidableEq, Repr

/-- `FOLDER_ID`, the configured fixed destination folder identifier. -/
def FOLDER_ID : String := "your-google-drive-folder-id"

/-- `SCOPES`, the fixed requested scope list. -/
def SCOPES : List String := ["https://www.googleapis.com/auth/drive.file"]

/-- The `file_metadata` dictionary passed as `body=` to `files().create`. -/
structure FileMetadata where
  name : String
  parents : List String
deriving DecidableEq, Repr

/-- The media body a create call would carry.  The source tries to build
one with `MediaFileUpload(file.stream, resumable=True)`, but that
constructor requires a filesystem path (it guesses a mimetype from the
name and opens the file), so handing it the Werkzeug file stream raises
`TypeError` before any media object exists; the type records the shape of
the intended value. -/
structure MediaFileUpload where
  stream : String
  resumable : Bool
deriving DecidableEq, Repr

/-- Externally visible remote calls a handler can issue.  The only kind the
claims concern is `drive_service.files().create(body=..., media_body=...,
fields=...).execute()`; in this source the call site is unreachable (the
`MediaFileUpload` constructor on the preceding line always raises), so no
handler ever emits it. -/
inductive Event where
  | createFile (body : FileMetadata) (media : MediaFileUpload) (fields : String)
deriving DecidableEq, Repr

/-- The object returned by `build('drive', 'v3', credentials=credentials)`. -/
structure DriveService where
  serviceName : String
  version : String
  credentials : Credentials
deriving DecidableEq, Repr

/-- `get_drive_service` returns either a Flask redirect `Response` object
(when the session holds no credential) or a Drive service client. -/
inductive DriveOrRedirect where
  | redirectResp (r : Response)
  | service (d : DriveService)
deriving DecidableEq, Repr

/-- `get_drive_service()`: if `'credentials' not in session`, returns a
redirect to the `authorize` route; otherwise unpickles the stored blob and
builds a Drive v3 client.  The second component is the session as left
behind by the call (the body performs no session write). -/
def get_drive_service (s : Session) : DriveOrRedirect × Session :=
  match s.credentials with
  | none => (.redirectResp (.redirect (urlFor .authorize)), s)
  | some blob => (.service ⟨"drive", "v3", Pickle.loads blob⟩, s)

/-- The `index` handler (`GET /`): redirect to `authorize` when the session
holds no credential, else render the upload form template. -/
def index (s : Session) : Response × Session × List Event :=
  match s.credentials with
  | none => (.redirect (urlFor .authorize), s, [])
  | some _ => (.render "index.html" FOLDER_ID, s, [])

/-- A multipart file as found in `request.files['file']`. -/
structure UploadedFile where
  filename : String
  stream : String
deriving DecidableEq, Repr

/-- The part of a `POST /upload` request the handler reads: the `'file'`
entry of `request.files`, if present. -/
structure UploadRequest where
  files : Option UploadedFile
deriving DecidableEq, Repr

/-- The `upload_file` handler (`POST /upload`).

Mirrors the source line by line: a missing `'file'` field or an empty
filename redirects to `index`; otherwise `drive_service =
get_drive_service()` runs (a session read; when unauthenticated it yields a
redirect `Response` object that the source never returns to the client),
the `file_metadata` dict is built, and then `media =
MediaFileUpload(file.stream, resumable=True)` raises `TypeError`
deterministically — the constructor requires a filename path, not a file
stream — before `drive_service.files()` on the next line is ever evaluated.
So every well-formed upload, authenticated or not, ends in a propagated 500
with no session write and no create-file call; the create call site below
it is dead code. -/
def upload_file (s : Session) (req : UploadRequest) :
    Response × Session × List Event :=
  match req.files with
  | none => (.redirect (urlFor .index), s, [])
  | some file =>
    if file.filename = "" then
      (.redirect (urlFor .index), s, [])
    else
      match get_drive_service s with
      | (_, s') =>
          (.serverError "TypeError: MediaFileUpload requires a filename path, not a file stream",
           s', [])

/-- The `authorize` handler (`GET /authorize`): builds the OAuth flow,
obtains `(authorization_url, state)` from `flow.authorization_url()` (both
produced by the OAuth library, hence inputs here), stores the fresh state
token under `session['state']`, and redirects the browser to the
authorization URL. -/
def authorize (s : Session) (freshState authorizationUrl : String) :
    Response × Session × List Event :=
  (.redirect authorizationUrl, { s with state := some freshState }, [])

/-- Failure modes of the token exchange. -/
inductive OAuthError where
  | mismatchingState
  | invalidGrant
deriving DecidableEq, Repr

/-- The part of the callback request the handlers and the OAuth library
read: the `state` query parameter of `request.url`, whether the token
endpoint accepts the embedded authorization code, and the credentials the
provider issues for that code when it does. -/
structure CallbackRequest where
  presentedState : String
  codeValid : Bool
  grantedCredentials : Credentials
deriving DecidableEq, Repr

/-- Models the external OAuth library call
`flow.fetch_token(authorization_response=request.url)` for a `Flow`
constructed with `state=flowState`: parsing the authorization response
validates the `state` query parameter against the flow's state and raises
`MismatchingStateError` on mismatch; then the code exchange fails with an
invalid-grant error if the token endpoint rejects the code (expired,
already used, mismatched redirect URI), and otherwise yields the granted
credentials. -/
def fetchToken (flowState : String) (cb : CallbackRequest) :
    Except OAuthError Credentials :=
  if cb.presentedState ≠ flowState then .error .mismatchingState
  else if cb.codeValid then .ok cb.grantedCredentials
  else .error .invalidGrant

/-- The `oauth2callback` handler (`GET /oauth2callback`): reads
`session['state']` (a `KeyError` propagates when the key is absent),
rebuilds the flow with that state, runs the token exchange (whose failures
propagate), and on success stores `pickle.dumps(flow.credentials)` under
`session['credentials']` and redirects to `index`.  Note that
`session['state']` is only read, never removed. -/
def oauth2callback (s : Session) (cb : CallbackRequest) :
    Response × Session × List Event :=
  match s.state with
  | none => (.serverError "KeyError: state", s, [])
  | some st =>
    match fetchToken st cb with
    | .error .mismatchingState => (.serverError "MismatchingStateError", s, [])
    | .error .invalidGrant => (.serverError "InvalidGrantError", s, [])
    | .ok creds =>
        (.redirect (urlFor .index),
         { s with credentials := some (Pickle.dumps creds) }, [])

/-!  Theorems settling the claims. -/

/-- C1: at the failing input — a session holding no credential, a POST to
the upload route with a well-formed file field — the main page does redirect
to the authorization start route, but the upload handler does not: the
redirect returned by `get_drive_service` is assigned to `drive_service` and
never returned to the client, and the handler then crashes (the
`MediaFileUpload` constructor raises `TypeError` on the file stream), so
the request ends in a propagated server error, though it still issues no
create-file call. -/
theorem c1_unauthenticated_upload_raises :
    (index ⟨none, none⟩).1 = Response.redirect "/authorize"
    ∧ (upload_file ⟨none, none⟩ ⟨some ⟨"photo.jpg", "bytes"⟩⟩).1
        = Response.serverError
            "TypeError: MediaFileUpload requires a filename path, not a file stream"
    ∧ (upload_file ⟨none, none⟩ ⟨some ⟨"photo.jpg", "bytes"⟩⟩).2.2 = [] :=
  ⟨rfl, rfl, rfl⟩

/-- C2 counterexample: the state token is not single-use.  A first callback
presenting the stored state `"st"` with a valid code succeeds and stores a
credential, yet leaves `session['state']` in place; a second callback
presenting the very same, already-consumed state token with a fresh valid
code is not rejected: it succeeds again and overwrites the credential. -/
theorem c2_state_token_reused :
    (oauth2callback ⟨none, some "st"⟩ ⟨"st", true, ⟨"tok1"⟩⟩).2.1
      = (⟨some ⟨⟨"tok1"⟩⟩, some "st"⟩ : Session)
    ∧ (oauth2callback ⟨some ⟨⟨"tok1"⟩⟩, some "st"⟩ ⟨"st", true, ⟨"tok2"⟩⟩).1
      = Response.redirect "/"
    ∧ (oauth2callback ⟨some ⟨⟨"tok1"⟩⟩, some "st"⟩ ⟨"st", true, ⟨"tok2"⟩⟩).2.1.credentials
      = some ⟨⟨"tok2"⟩⟩ :=
  ⟨rfl, rfl, rfl⟩

/-- C2 (amended): when the state presented in the callback URL differs from
the session-stored state the flow was rebuilt with, the token exchange is
rejected (`MismatchingStateError`) and the session — in particular its
credential entry — is unchanged.  The state token, however, is not
single-use: whatever the outcome, the handler leaves `session['state']`
exactly as it was. -/
theorem c2_mismatch_rejected_state_kept
    (s : Session) (st : String) (cb : CallbackRequest) (h : s.state = some st) :
    (cb.presentedState ≠ st →
      (oauth2callback s cb).1 = Response.serverError "MismatchingStateError"
      ∧ (oauth2callback s cb).2.1 = s)
    ∧ (oauth2callback s cb).2.1.state = s.state := by
  constructor
  · intro hne
    simp [oauth2callback, h, fetchToken, hne]
  · rcases hft : fetchToken st cb with e | cr
    · cases e <;> simp [oauth2callback, h, hft]
    · simp [oauth2callback, h, hft]

theorem c2_mismatch_rejected_state_kept_witness :
    ((⟨none, some "a"⟩ : Session).state = some "a")
    ∧ (("b" ≠ "a" →
        (oauth2callback ⟨none, some "a"⟩ ⟨"b", true, ⟨"t"⟩⟩).1
          = Response.serverError "MismatchingStateError"
        ∧ (oauth2callback ⟨none, some "a"⟩ ⟨"b", true, ⟨"t"⟩⟩).2.1
          = (⟨none, some "a"⟩ : Session))
      ∧ (oauth2callback ⟨none, some "a"⟩ ⟨"b", true, ⟨"t"⟩⟩).2.1.state
          = (⟨none, some "a"⟩ : Session).state) :=
  ⟨rfl, c2_mismatch_rejected_state_kept ⟨none, some "a"⟩ "a" ⟨"b", true, ⟨"t"⟩⟩ rfl⟩

/-- C3: at the failing input — a session holding a stored credential, a
POST to the upload route with a non-empty filename — the claimed single
create-file call with `{name: filename, parents: [FOLDER_ID]}` never
happens: the `MediaFileUpload` constructor on the line before the create
call raises `TypeError` (it requires a filename path, not the file stream
it is handed), so the request ends in a propagated server error and the
event list is empty — zero create-file calls. -/
theorem c3_upload_create_never_issued :
    (upload_file ⟨some ⟨⟨"t"⟩⟩, none⟩ ⟨some ⟨"a.jpg", "bs"⟩⟩).1
      = Response.serverError
          "TypeError: MediaFileUpload requires a filename path, not a file stream"
    ∧ (upload_file ⟨some ⟨⟨"t"⟩⟩, none⟩ ⟨some ⟨"a.jpg", "bs"⟩⟩).2.2 = []
    ∧ (upload_file ⟨some ⟨⟨"t"⟩⟩, none⟩ ⟨some ⟨"a.jpg", "bs"⟩⟩).2.2
        ≠ [Event.createFile ⟨"a.jpg", [FOLDER_ID]⟩ ⟨"bs", true⟩ "id"] :=
  ⟨rfl, rfl, by decide⟩

/-- C4: a POST to the upload route that lacks the file field, or whose file
has an empty filename, answers with a redirect to the main page and issues
zero create-file calls. -/
theorem c4_malformed_upload_redirects
    (s : Session) (req : UploadRequest)
    (h : req.files = none ∨ ∃ f, req.files = some f ∧ f.filename = "") :
    (upload_file s req).1 = Response.redirect "/"
    ∧ (upload_file s req).2.2 = [] := by
  rcases h with h | ⟨f, hf, hname⟩
  · simp [upload_file, h, urlFor]
  · simp [upload_file, hf, hname, urlFor]

theorem c4_malformed_upload_redirects_witness :
    ((⟨none⟩ : UploadRequest).files = none
      ∨ ∃ f, (⟨none⟩ : UploadRequest).files = some f ∧ f.filename = "")
    ∧ (upload_file ⟨some ⟨⟨"t"⟩⟩, none⟩ ⟨none⟩).1 = Response.redirect "/"
    ∧ (upload_file ⟨some ⟨⟨"t"⟩⟩, none⟩ ⟨none⟩).2.2 = [] :=
  ⟨Or.inl rfl, c4_malformed_upload_redirects ⟨some ⟨⟨"t"⟩⟩, none⟩ ⟨none⟩ (Or.inl rfl)⟩

/-- C5: a callback on a session holding no prior authorization state token
propagates a `KeyError` (it does not silently succeed) and leaves the
session — in particular its credential entry — unchanged. -/
theorem c5_callback_without_state_fails
    (s : Session) (cb : CallbackRequest) (h : s.state = none) :
    (oauth2callback s cb).1 = Response.serverError "KeyError: state"
    ∧ (oauth2callback s cb).2.1 = s := by
  simp [oauth2callback, h]

theorem c5_callback_without_state_fails_witness :
    ((⟨none, none⟩ : Session).state = none)
    ∧ (oauth2callback ⟨none, none⟩ ⟨"x", true, ⟨"t"⟩⟩).1
        = Response.serverError "KeyError: state"
    ∧ (oauth2callback ⟨none, none⟩ ⟨"x", true, ⟨"t"⟩⟩).2.1 = (⟨none, none⟩ : Session) :=
  ⟨rfl, c5_callback_without_state_fails ⟨none, none⟩ ⟨"x", true, ⟨"t"⟩⟩ rfl⟩

/-- C6: a callback on a session in the awaiting-callback state (a stored
state token), presenting the matching state with a valid code, stores the
serialized granted credential in the session, redirects to the main page,
and afterwards the credential lookup of `get_drive_service` returns a Drive
service built on that credential rather than the redirect sentinel. -/
theorem c6_successful_callback_authenticates
    (s : Session) (st : String) (cb : CallbackRequest)
    (hs : s.state = some st) (hmatch : cb.presentedState = st)
    (hcode : cb.codeValid = true) :
    (oauth2callback s cb).1 = Response.redirect "/"
    ∧ (oauth2callback s cb).2.1.credentials = some (Pickle.dumps cb.grantedCredentials)
    ∧ (get_drive_service (oauth2callback s cb).2.1).1
        = DriveOrRedirect.service ⟨"drive", "v3", cb.grantedCredentials⟩ := by
  simp [oauth2callback, hs, fetchToken, hmatch, hcode, get_drive_service,
    Pickle.dumps, Pickle.loads, urlFor]

theorem c6_successful_callback_authenticates_witness :
    ((⟨none, some "st"⟩ : Session).state = some "st")
    ∧ ((⟨"st", true, ⟨"tok"⟩⟩ : CallbackRequest).presentedState = "st")
    ∧ ((⟨"st", true, ⟨"tok"⟩⟩ : CallbackRequest).codeValid = true)
    ∧ (oauth2callback ⟨none, some "st"⟩ ⟨"st", true, ⟨"tok"⟩⟩).1 = Response.redirect "/"
    ∧ (oauth2callback ⟨none, some "st"⟩ ⟨"st", true, ⟨"tok"⟩⟩).2.1.credentials
        = some (Pickle.dumps ⟨"tok"⟩)
    ∧ (get_drive_service (oauth2callback ⟨none, some "st"⟩ ⟨"st", true, ⟨"tok"⟩⟩).2.1).1
        = DriveOrRedirect.service ⟨"drive", "v3", ⟨"tok"⟩⟩ :=
  ⟨rfl, rfl, rfl,
   c6_successful_callback_authenticates ⟨none, some "st"⟩ "st" ⟨"st", true, ⟨"tok"⟩⟩
     rfl rfl rfl⟩

/-- C7: a stored credential is never removed.  Whatever route handler runs
on a session holding a credential — main page, upload (any request, any
remote outcome), authorization start, or callback (any callback request) —
the session afterwards still holds some credential. -/
theorem c7_credential_never_removed
    (s : Session) (c : PickledBlob) (h : s.credentials = some c)
    (req : UploadRequest) (fresh authUrl : String)
    (cb : CallbackRequest) :
    (index s).2.1.credentials.isSome = true
    ∧ (upload_file s req).2.1.credentials.isSome = true
    ∧ (authorize s fresh authUrl).2.1.credentials.isSome = true
    ∧ (oauth2callback s cb).2.1.credentials.isSome = true := by
  refine ⟨?_, ?_, ?_, ?_⟩
  · simp [index, h]
  · rcases req with ⟨_ | f⟩
    · simp [upload_file, h]
    · by_cases hf : f.filename = ""
      · simp [upload_file, hf, h]
      · simp [upload_file, get_drive_service, hf, h]
  · simp [authorize, h]
  · rcases hst : s.state with _ | st
    · simp [oauth2callback, hst, h]
    · rcases hft : fetchToken st cb with e | cr
      · cases e <;> simp [oauth2callback, hst, hft, h]
      · simp [oauth2callback, hst, hft, h]

theorem c7_credential_never_removed_witness :
    ((⟨some ⟨⟨"t"⟩⟩, some "st"⟩ : Session).credentials = some ⟨⟨"t"⟩⟩)
    ∧ (index ⟨some ⟨⟨"t"⟩⟩, some "st"⟩).2.1.credentials.isSome = true
    ∧ (upload_file ⟨some ⟨⟨"t"⟩⟩, some "st"⟩ ⟨some ⟨"a", "b"⟩⟩).2.1.credentials.isSome
        = true
    ∧ (authorize ⟨some ⟨⟨"t"⟩⟩, some "st"⟩ "fresh" "url").2.1.credentials.isSome = true
    ∧ (oauth2callback ⟨some ⟨⟨"t"⟩⟩, some "st"⟩ ⟨"st", true, ⟨"u"⟩⟩).2.1.credentials.isSome
        = true :=
  ⟨rfl,
   c7_credential_never_removed ⟨some ⟨⟨"t"⟩⟩, some "st"⟩ ⟨⟨"t"⟩⟩ rfl
     ⟨some ⟨"a", "b"⟩⟩ "fresh" "url" ⟨"st", true, ⟨"u"⟩⟩⟩

/-- C8: the credential lookup is read-only, so performing it twice with no
intervening write returns the same result both times and leaves the session
where it was. -/
theorem c8_get_idempotent (s : Session) :
    (get_drive_service ((get_drive_service s).2)).1 = (get_drive_service s).1
    ∧ (get_drive_service ((get_drive_service s).2)).2 = (get_drive_service s).2 := by
  rcases s with ⟨_ | blob, st⟩ <;> simp [get_drive_service]

/-- C9: a malformed upload (missing file field or empty filename) is
rejected before the credential lookup: the session is returned untouched,
and the response is the same whatever the session holds — in particular the
same whether or not a credential is stored. -/
theorem c9_malformed_upload_frame
    (s₁ s₂ : Session) (req : UploadRequest)
    (h : req.files = none ∨ ∃ f, req.files = some f ∧ f.filename = "") :
    (upload_file s₁ req).2.1 = s₁
    ∧ (upload_file s₁ req).1 = (upload_file s₂ req).1 := by
  rcases h with h | ⟨f, hf, hname⟩
  · simp [upload_file, h]
  · simp [upload_file, hf, hname]

theorem c9_malformed_upload_frame_witness :
    ((⟨some ⟨"", "bs"⟩⟩ : UploadRequest).files = none
      ∨ ∃ f, (⟨some ⟨"", "bs"⟩⟩ : UploadRequest).files = some f ∧ f.filename = "")
    ∧ (upload_file ⟨some ⟨⟨"t"⟩⟩, none⟩ ⟨some ⟨"", "bs"⟩⟩).2.1
        = (⟨some ⟨⟨"t"⟩⟩, none⟩ : Session)
    ∧ (upload_file ⟨some ⟨⟨"t"⟩⟩, none⟩ ⟨some ⟨"", "bs"⟩⟩).1
        = (upload_file ⟨none, none⟩ ⟨some ⟨"", "bs"⟩⟩).1 :=
  ⟨Or.inr ⟨⟨"", "bs"⟩, rfl, rfl⟩,
   c9_malformed_upload_frame ⟨some ⟨⟨"t"⟩⟩, none⟩ ⟨none, none⟩ ⟨some ⟨"", "bs"⟩⟩
     (Or.inr ⟨⟨"", "bs"⟩, rfl, rfl⟩)⟩

/-- C10: the authorization start route writes only the state token key: the
session afterwards is exactly the old session with its state overwritten by
the fresh token, so the credential entry is left unchanged. -/
theorem c10_authorize_frame (s : Session) (fresh authUrl : String) :
    (authorize s fresh authUrl).2.1 = { s with state := some fresh }
    ∧ (authorize s fresh authUrl).2.1.credentials = s.credentials :=
  ⟨rfl, rfl⟩
